import Mathlib

/-!
Verification of the fertilizer-analysis ETL and query layer.

This file gives a shallow embedding of the data model and the SQL/loop logic
of src/fertilizer_sql_analysis.py, and proves the claims about it.

Modelling conventions:
* a DuckDB table is a list of records (rows in storage order);
* SQL NULL is Option.none; machine doubles are modelled by exact rationals;
* DuckDB ROUND on a double rounds half away from zero (sqlRound below);
* ORDER BY is a stable insertion sort; DuckDB's default null placement is
  NULLS LAST, captured by the kgOrd comparison on Option Int;
* the World Bank server answering the pagination loop is a function from
  page number to payload.
-/

namespace Fertilizer

/-- One raw indicator observation, a row of wb.raw_fert as used by the
cleaning SQL: countryiso3code, the observation-level country name
("country.value"), the date (a year, cast to INTEGER by the SQL) and the
nullable numeric value. -/
structure RawFert where
  iso3 : String
  country_name_api : Option String
  date : Int
  value : Option ℚ
  deriving DecidableEq, Repr

/-- One raw country-metadata row of wb.raw_country: iso3, iso2, display
name and region value (null for entities the API reports without a
region). -/
structure RawCountry where
  iso3 : String
  iso2 : Option String
  name : Option String
  region : Option String
  deriving DecidableEq, Repr

/-- One row of the canonical table wb.fertilizer_clean. -/
structure CleanRecord where
  iso2 : Option String
  iso3 : String
  country_name : Option String
  region : Option String
  year : Int
  kg_per_ha : Option Int
  deriving DecidableEq, Repr

/-- The DuckDB database state: the two raw tables and the canonical table. -/
structure DuckDB where
  raw_fert : List RawFert
  raw_country : List RawCountry
  fertilizer_clean : List CleanRecord
  deriving DecidableEq, Repr

/-- DuckDB ROUND on a double value: round half away from zero, then the SQL
casts the result to INTEGER. Written on the numerator and denominator: for
q >= 0 the result is the floor of (2 * num + den) / (2 * den), which is
floor(q + 1/2); a negative q is rounded through its absolute value. -/
def sqlRound (q : ℚ) : Int :=
  if q.num < 0 then -((2 * (-q.num) + (q.den : Int)).fdiv (2 * (q.den : Int)))
  else (2 * q.num + (q.den : Int)).fdiv (2 * (q.den : Int))

/-- DuckDB ROUND(x, 1): round to one decimal digit, half away from zero:
scale the rational by 10 (on the numerator), round as sqlRound, divide the
integer result back by 10. -/
def sqlRound1 (q : ℚ) : ℚ :=
  Rat.divInt (sqlRound (Rat.divInt (10 * q.num) (q.den : Int))) 10

/-- The body of the CREATE OR REPLACE TABLE wb.fertilizer_clean statement of
clean_with_sql: filter raw fert rows to non-null values, filter raw country
rows to those with a region that is present and not 'Aggregates', and
inner-join on iso3, coalescing the country name and rounding the value. -/
def fertilizer_clean_table (raw_fert : List RawFert) (raw_country : List RawCountry) :
    List CleanRecord :=
  let fert := raw_fert.filter (fun f => decide (f.value ≠ none))
  let countries := raw_country.filter
    (fun c => decide (c.region ≠ none ∧ c.region ≠ some "Aggregates"))
  fert.flatMap (fun f =>
    (countries.filter (fun c => decide (c.iso3 = f.iso3))).map (fun c =>
      { iso2 := c.iso2
        iso3 := f.iso3
        country_name := c.name.orElse (fun _ => f.country_name_api)
        region := c.region
        year := f.date
        kg_per_ha := f.value.map sqlRound }))

/-- clean_with_sql as a state transformer on the database: it reads the two
raw tables and replaces wb.fertilizer_clean wholesale. -/
def clean_with_sql (db : DuckDB) : DuckDB :=
  { db with fertilizer_clean := fertilizer_clean_table db.raw_fert db.raw_country }

/-- The ORDER BY ... DESC comparison on a nullable integer column: larger
values first, NULLS LAST (DuckDB's default null placement). kgOrd a b means
a may come before b. -/
def kgOrd (a b : Option Int) : Prop :=
  match a, b with
  | some x, some y => y ≤ x
  | some _, none => True
  | none, some _ => False
  | none, none => True

instance kgOrd.instDecidable : ∀ a b, Decidable (kgOrd a b) := fun a b =>
  match a, b with
  | some x, some y => inferInstanceAs (Decidable (y ≤ x))
  | some _, none => inferInstanceAs (Decidable True)
  | none, some _ => inferInstanceAs (Decidable False)
  | none, none => inferInstanceAs (Decidable True)

/-- ORDER BY (key r) DESC NULLS LAST, as a relation on rows. -/
def byKeyDesc {α : Type} (key : α → Option Int) : α → α → Prop :=
  fun a b => kgOrd (key a) (key b)

instance byKeyDesc.instDecidableRel {α : Type} (key : α → Option Int) :
    DecidableRel (byKeyDesc key) := fun a b => kgOrd.instDecidable (key a) (key b)

instance byKeyDesc.instIsTotal {α : Type} (key : α → Option Int) :
    IsTotal α (byKeyDesc key) := by
  constructor
  intro a b
  unfold byKeyDesc kgOrd
  rcases key a with _ | x <;> rcases key b with _ | y <;> try simp
  all_goals omega

instance byKeyDesc.instIsTrans {α : Type} (key : α → Option Int) :
    IsTrans α (byKeyDesc key) := by
  constructor
  intro a b c
  unfold byKeyDesc kgOrd
  rcases key a with _ | x <;> rcases key b with _ | y <;> rcases key c with _ | z <;>
    try simp
  all_goals omega

/-- ORDER BY (key r) ASC on an integer column, as a relation on rows. -/
def byKeyAsc {α : Type} (key : α → Int) : α → α → Prop :=
  fun a b => key a ≤ key b

instance byKeyAsc.instDecidableRel {α : Type} (key : α → Int) :
    DecidableRel (byKeyAsc key) := fun a b => inferInstanceAs (Decidable (key a ≤ key b))

instance byKeyAsc.instIsTotal {α : Type} (key : α → Int) :
    IsTotal α (byKeyAsc key) := by
  constructor
  intro a b
  unfold byKeyAsc
  omega

instance byKeyAsc.instIsTrans {α : Type} (key : α → Int) :
    IsTrans α (byKeyAsc key) := by
  constructor
  intro a b c
  unfold byKeyAsc
  omega

/-- visualize_top_consumers_2020: SELECT country_name, region, kg_per_ha FROM
wb.fertilizer_clean WHERE year = 2020 ORDER BY kg_per_ha DESC LIMIT top_n.
The projection keeps whole rows here; the claims speak about countries and
values, which the row carries. -/
def visualize_top_consumers_2020 (tbl : List CleanRecord) (top_n : Nat) :
    List CleanRecord :=
  ((tbl.filter (fun r => decide (r.year = 2020))).insertionSort
    (byKeyDesc (fun r => r.kg_per_ha))).take top_n

/-- One output row of peak_consumption_advanced_interactive. -/
structure PeakRow where
  country_name : Option String
  region : Option String
  peak_year : Int
  peak_consumption : Option Int
  consumption_level : String
  deriving DecidableEq, Repr

/-- SQL comparison a > b on a nullable left operand: a NULL comparison is
unknown, hence not satisfied. -/
def optGT (a : Option Int) (b : Int) : Bool :=
  match a with
  | some x => decide (b < x)
  | none => false

/-- The CASE expression of peak_consumption_advanced_interactive:
CASE WHEN peak_consumption > 500 THEN 'Very High' WHEN peak_consumption > 200
THEN 'High' WHEN peak_consumption > 100 THEN 'Medium' ELSE 'Low' END.
A NULL comparison is not true, so a NULL peak falls to the ELSE branch. -/
def caseLevel (peak : Option Int) : String :=
  if optGT peak 500 then "Very High"
  else if optGT peak 200 then "High"
  else if optGT peak 100 then "Medium"
  else "Low"

/-- Deduplication of grouping keys, keeping one occurrence of each key
(GROUP BY / PARTITION BY produces one group per distinct key). -/
def dedupKeys {α : Type} [DecidableEq α] : List α → List α
  | [] => []
  | a :: l => if a ∈ l then dedupKeys l else a :: dedupKeys l

/-- peak_consumption_advanced_interactive: rank rows with year >= 1970 per
country_name by kg_per_ha descending (ROW_NUMBER), keep the rank-1 row per
country, attach the CASE consumption level, order by peak value descending
and take top_n. -/
def peak_consumption_advanced_interactive (tbl : List CleanRecord) (top_n : Nat) :
    List PeakRow :=
  let base := tbl.filter (fun r => decide (1970 ≤ r.year))
  let names := dedupKeys (base.map (fun r => r.country_name))
  let rank1 := names.filterMap (fun n =>
    ((base.filter (fun r => decide (r.country_name = n))).insertionSort
        (byKeyDesc (fun r => r.kg_per_ha))).head?.map (fun r =>
      { country_name := n
        region := r.region
        peak_year := r.year
        peak_consumption := r.kg_per_ha
        consumption_level := caseLevel r.kg_per_ha : PeakRow }))
  (rank1.insertionSort (byKeyDesc (fun p => p.peak_consumption))).take top_n

/-- The bucket scale as the specification words it: Low for values up to 100,
Medium for values over 100 up to 200, High over 200 up to 500, Very High
above 500 (lower bound exclusive, upper bound inclusive). -/
def specBucket (v : Int) : String :=
  if v ≤ 100 then "Low"
  else if v ≤ 200 then "Medium"
  else if v ≤ 500 then "High"
  else "Very High"

/-- One output row of consumption_change_analysis (a row of its changes
CTE, which the outer SELECT passes through). -/
structure ChangeRow where
  country_name : Option String
  region : Option String
  start_consumption : Option Int
  end_consumption : Option Int
  absolute_change : Option Int
  percent_change : Option ℚ
  deriving DecidableEq, Repr

/-- SQL MAX(CASE WHEN year = y THEN kg_per_ha END) over a group of rows: the
maximum of the non-null kg values among rows of year y, NULL when there is
none. -/
def sqlMaxKg (rows : List CleanRecord) (y : Int) : Option Int :=
  ((rows.filter (fun r => decide (r.year = y))).filterMap (fun r => r.kg_per_ha)).max?

/-- COUNT(DISTINCT year) over a group of rows. -/
def countDistinctYears (rows : List CleanRecord) : Nat :=
  ((rows.map (fun r => r.year)).dedup).length

/-- SQL subtraction on nullable integers: NULL if either operand is NULL. -/
def optSub (a b : Option Int) : Option Int :=
  match a, b with
  | some x, some y => some (x - y)
  | _, _ => none

/-- ROUND(((end - start) / NULLIF(start, 0)) * 100, 1) on nullable integer
endpoints: NULL if either endpoint is NULL, and NULL when start is 0 since
NULLIF turns the divisor into NULL (DuckDB divides integers as doubles,
modelled by exact rationals). -/
def pctChange (endv startv : Option Int) : Option ℚ :=
  match endv, startv with
  | some e, some s =>
    if s = 0 then none else some (sqlRound1 (Rat.divInt ((e - s) * 100) s))
  | _, _ => none

/-- The changes-CTE row built for one (country_name, region) group. -/
def changeRowOf (grp : List CleanRecord) (year_start year_end : Int)
    (k : Option String × Option String) : ChangeRow :=
  { country_name := k.1
    region := k.2
    start_consumption := sqlMaxKg grp year_start
    end_consumption := sqlMaxKg grp year_end
    absolute_change := optSub (sqlMaxKg grp year_end) (sqlMaxKg grp year_start)
    percent_change := pctChange (sqlMaxKg grp year_end) (sqlMaxKg grp year_start) }

/-- The latest_data CTE of consumption_change_analysis, restricted to the
columns its consumers read: the canonical rows of the two endpoint years
(WHERE year IN (year_start, year_end)). The LAG column is computed by the
source but never selected downstream, so it is projected away here. -/
def changeYearsOnly (tbl : List CleanRecord) (year_start year_end : Int) :
    List CleanRecord :=
  tbl.filter (fun r => decide (r.year = year_start ∨ r.year = year_end))

/-- One GROUP BY (country_name, region) group of the changes CTE. -/
def changeGroup (tbl : List CleanRecord) (year_start year_end : Int)
    (k : Option String × Option String) : List CleanRecord :=
  (changeYearsOnly tbl year_start year_end).filter
    (fun r => decide (r.country_name = k.1 ∧ r.region = k.2))

/-- consumption_change_analysis: restrict the canonical table to the two
endpoint years, group by (country_name, region), keep groups with rows in
two distinct years (HAVING COUNT(DISTINCT year) = 2), build the
start/end/absolute/percent aggregates per group, drop rows with a NULL
endpoint (the outer WHERE), and order by absolute_change descending. -/
def consumption_change_analysis (tbl : List CleanRecord) (year_start year_end : Int) :
    List ChangeRow :=
  let keys := dedupKeys
    ((changeYearsOnly tbl year_start year_end).map (fun r => (r.country_name, r.region)))
  let changes := keys.filterMap (fun k =>
    if countDistinctYears (changeGroup tbl year_start year_end k) = 2 then
      some (changeRowOf (changeGroup tbl year_start year_end k) year_start year_end k)
    else none)
  (changes.filter (fun c =>
      decide (c.start_consumption ≠ none ∧ c.end_consumption ≠ none))).insertionSort
    (byKeyDesc (fun c => c.absolute_change))

/-- One row returned by get_country_trend. -/
structure TrendRow where
  country_name : Option String
  year : Int
  kg_per_ha : Option Int
  region : Option String
  deriving DecidableEq, Repr

/-- Projection of a canonical row to the columns selected by
get_country_trend. -/
def toTrendRow (r : CleanRecord) : TrendRow :=
  { country_name := r.country_name
    year := r.year
    kg_per_ha := r.kg_per_ha
    region := r.region }

/-- The trend query by iso3: WHERE iso3 = ? AND kg_per_ha IS NOT NULL
ORDER BY year. -/
def trendQueryIso (tbl : List CleanRecord) (i : String) : List TrendRow :=
  ((tbl.filter (fun r => decide (r.iso3 = i ∧ r.kg_per_ha ≠ none))).map
    toTrendRow).insertionSort (byKeyAsc (fun t => t.year))

/-- The trend query by exact country name: WHERE country_name = ? AND
kg_per_ha IS NOT NULL ORDER BY year. -/
def trendQueryName (tbl : List CleanRecord) (n : String) : List TrendRow :=
  ((tbl.filter (fun r => decide (r.country_name = some n ∧ r.kg_per_ha ≠ none))).map
    toTrendRow).insertionSort (byKeyAsc (fun t => t.year))

/-- The pandas df.empty check of get_country_trend turned into the None
("no data") return value. -/
def emptyToNone {α : Type} (l : List α) : Option (List α) :=
  if l.isEmpty then none else some l

/-- The country_name branch of get_country_trend, reached when the iso3
argument is falsy; a None or empty-string name argument is falsy in Python
and falls through to the final None return. -/
def trendNameBranch (tbl : List CleanRecord) : Option String → Option (List TrendRow)
  | some n => if n = "" then none else emptyToNone (trendQueryName tbl n)
  | none => none

/-- get_country_trend: query by iso3 when that argument is truthy, else by
exact country name when truthy, else return None; each query keeps only
non-null kg_per_ha rows ordered by year ascending, and an empty result
becomes None ("no data"). -/
def get_country_trend (tbl : List CleanRecord)
    (country_iso3 country_name : Option String) : Option (List TrendRow) :=
  match country_iso3 with
  | some i =>
    if i = "" then trendNameBranch tbl country_name
    else emptyToNone (trendQueryIso tbl i)
  | none => trendNameBranch tbl country_name

/-- A JSON payload answered by the World Bank API for one page request:
either malformed (not a list of at least two elements) or a metadata page
count together with the page's record array (records modelled by opaque
identifiers). -/
inductive WBPayload where
  | malformed
  | pageData (pages : Int) (records : List Nat)
  deriving DecidableEq, Repr

/-- The reported total page count of a payload (irrelevant for a malformed
payload: the loop never reads it in that case). -/
def pageCountOf : WBPayload → Int
  | .malformed => 0
  | .pageData p _ => p

/-- The record array of a payload (empty for a malformed payload: a page the
loop breaks on contributes no records). -/
def recsOf : WBPayload → List Nat
  | .malformed => []
  | .pageData _ r => r

/-- One run of the indicator pagination loop of load_api_to_duckdb, with
explicit fuel: at each page, a malformed payload or an empty record array
stops the loop with the records accumulated so far; otherwise the page's
records are appended, and the loop stops when the current page number has
reached the reported total page count, else moves to the next page. Returns
none when the fuel runs out before the loop stops on its own. -/
def fetchLoop (server : Nat → WBPayload) : Nat → Nat → List Nat → Option (List Nat)
  | 0, _, _ => none
  | fuel + 1, page, acc =>
    match server page with
    | .malformed => some acc
    | .pageData pages records =>
      if records.isEmpty then some acc
      else
        if pages ≤ (page : Int) then some (acc ++ records)
        else fetchLoop server fuel (page + 1) (acc ++ records)

/-- The fert accumulation of load_api_to_duckdb: the pagination loop started
at page 1 with an empty accumulator. -/
def fetch_indicator_series (server : Nat → WBPayload) (fuel : Nat) : Option (List Nat) :=
  fetchLoop server fuel 1 []

/-- The indicator pagination loop terminates against a given server: some
finite fuel lets the loop stop on its own. -/
def fetchTerminates (server : Nat → WBPayload) : Prop :=
  ∃ fuel res, fetch_indicator_series server fuel = some res

/-- Consecutive page numbers s, s+1, ..., s+k-1. -/
def pageSpan : Nat → Nat → List Nat
  | _, 0 => []
  | s, k + 1 => s :: pageSpan (s + 1) k

/-! Concrete fixtures used by witnesses and counterexamples. -/

/-- Canonical-table fixture for the peak query: one country with kg values
50 in 1980, 120 in 1995 and 90 in 2010. -/
def peakFixture : List CleanRecord :=
  [{ iso2 := some "AL", iso3 := "ALP", country_name := some "Alphaland",
     region := some "South Asia", year := 1980, kg_per_ha := some 50 },
   { iso2 := some "AL", iso3 := "ALP", country_name := some "Alphaland",
     region := some "South Asia", year := 1995, kg_per_ha := some 120 },
   { iso2 := some "AL", iso3 := "ALP", country_name := some "Alphaland",
     region := some "South Asia", year := 2010, kg_per_ha := some 90 }]

/-- Raw indicator fixture for the top-consumers query: year-2020 values
A=300, B=250, C=400, D=null, E=100. -/
def topRawFert : List RawFert :=
  [{ iso3 := "AAA", country_name_api := some "A", date := 2020, value := some 300 },
   { iso3 := "BBB", country_name_api := some "B", date := 2020, value := some 250 },
   { iso3 := "CCC", country_name_api := some "C", date := 2020, value := some 400 },
   { iso3 := "DDD", country_name_api := some "D", date := 2020, value := none },
   { iso3 := "EEE", country_name_api := some "E", date := 2020, value := some 100 }]

/-- Raw country fixture matching topRawFert, with one well-regioned
metadata row per ISO3. -/
def topRawCountry : List RawCountry :=
  [{ iso3 := "AAA", iso2 := some "AA", name := some "A", region := some "RegionOne" },
   { iso3 := "BBB", iso2 := some "BB", name := some "B", region := some "RegionOne" },
   { iso3 := "CCC", iso2 := some "CC", name := some "C", region := some "RegionTwo" },
   { iso3 := "DDD", iso2 := some "DD", name := some "D", region := some "RegionTwo" },
   { iso3 := "EEE", iso2 := some "EE", name := some "E", region := some "RegionTwo" }]

/-- Canonical-table fixture with a single row, used against
consumption_change_analysis at equal endpoint years. -/
def changeOneRow : List CleanRecord :=
  [{ iso2 := some "AL", iso3 := "ALP", country_name := some "Alphaland",
     region := some "South Asia", year := 2020, kg_per_ha := some 5 }]

/-- Canonical-table fixture where one country name carries two different
regions at the two endpoint years, splitting its (country_name, region)
group in consumption_change_analysis. -/
def changeSplitRegion : List CleanRecord :=
  [{ iso2 := some "XA", iso3 := "XAA", country_name := some "Xanadu",
     region := some "EastRegion", year := 2010, kg_per_ha := some 5 },
   { iso2 := some "XB", iso3 := "XAB", country_name := some "Xanadu",
     region := some "WestRegion", year := 2020, kg_per_ha := some 7 }]

/-- Well-formed canonical-table fixture for the change query: country X goes
4 to 10, country Z starts at 0 (percent change must be null), country Y has
only the end year and must be excluded. -/
def changeFixture : List CleanRecord :=
  [{ iso2 := some "XX", iso3 := "XXX", country_name := some "Xland",
     region := some "RegionOne", year := 2010, kg_per_ha := some 4 },
   { iso2 := some "XX", iso3 := "XXX", country_name := some "Xland",
     region := some "RegionOne", year := 2020, kg_per_ha := some 10 },
   { iso2 := some "ZZ", iso3 := "ZZA", country_name := some "Zland",
     region := some "RegionOne", year := 2010, kg_per_ha := some 0 },
   { iso2 := some "ZZ", iso3 := "ZZA", country_name := some "Zland",
     region := some "RegionOne", year := 2020, kg_per_ha := some 5 },
   { iso2 := some "YY", iso3 := "YYA", country_name := some "Yland",
     region := some "RegionTwo", year := 2020, kg_per_ha := some 9 }]

/-- Raw country fixture with two metadata rows for the same ISO3, both with
an honest region, to fan out the cleaning join. -/
def dupRawCountry : List RawCountry :=
  [{ iso3 := "AAA", iso2 := some "AA", name := some "Alpha", region := some "EastRegion" },
   { iso3 := "AAA", iso2 := some "A2", name := some "AlphaTwo", region := some "WestRegion" }]

/-- One raw observation for the ISO3 duplicated in dupRawCountry. -/
def dupRawFert : List RawFert :=
  [{ iso3 := "AAA", country_name_api := some "Alpha", date := 2000, value := some 3 }]

/-- Canonical-table fixture for the country-trend query: a country with two
non-null years stored out of year order, plus a row with a null value. -/
def trendFixture : List CleanRecord :=
  [{ iso2 := some "US", iso3 := "USA", country_name := some "United States",
     region := some "North America", year := 2001, kg_per_ha := some 120 },
   { iso2 := some "US", iso3 := "USA", country_name := some "United States",
     region := some "North America", year := 2000, kg_per_ha := some 110 },
   { iso2 := some "FR", iso3 := "FRA", country_name := some "France",
     region := some "EuropeZone", year := 2000, kg_per_ha := none }]

/-- A pathological server whose every page reports one more total page than
the page being requested, with a non-empty record array: no stopping
condition of the pagination loop ever fires. -/
def badServer : Nat → WBPayload :=
  fun p => .pageData ((p : Int) + 1) [p]

/-- A server reporting pages = 0 with a non-empty first page. -/
def zeroPagesServer : Nat → WBPayload :=
  fun _ => .pageData 0 [7]

end Fertilizer

namespace Fertilizer

/-! Helper lemmas. -/

theorem mem_dedupKeys {α : Type} [DecidableEq α] (l : List α) (x : α) :
    x ∈ dedupKeys l ↔ x ∈ l := by
  induction l with
  | nil => simp [dedupKeys]
  | cons a l ih =>
    by_cases ha : a ∈ l
    · simp only [dedupKeys, if_pos ha, ih, List.mem_cons]
      constructor
      · exact Or.inr
      · rintro (rfl | hx)
        · exact ha
        · exact hx
    · simp only [dedupKeys, if_neg ha, List.mem_cons, ih]

theorem filter_eq_singleton_of_pairwise {α : Type} {l : List α} {p : α → Bool} {r : α}
    (hpw : l.Pairwise (fun a b => ¬(p a = true ∧ p b = true)))
    (hr : r ∈ l) (hpr : p r = true) :
    l.filter p = [r] := by
  induction l with
  | nil => cases hr
  | cons a l ih =>
    rw [List.pairwise_cons] at hpw
    rcases List.mem_cons.mp hr with rfl | hrl
    · rw [List.filter_cons_of_pos hpr]
      have hnil : l.filter p = [] := by
        rw [List.filter_eq_nil_iff]
        intro s hs hps
        exact hpw.1 s hs ⟨hpr, hps⟩
      rw [hnil]
    · have hpa : ¬p a = true := fun hpa => hpw.1 r hrl ⟨hpa, hpr⟩
      rw [List.filter_cons_of_neg (by simpa using hpa)]
      exact ih hpw.2 hrl

theorem length_filter_le_one_of_pairwise {α : Type} {l : List α} {p : α → Bool}
    (h : l.Pairwise (fun a b => ¬(p a = true ∧ p b = true))) :
    (l.filter p).length ≤ 1 := by
  induction l with
  | nil => simp
  | cons a l ih =>
    rw [List.pairwise_cons] at h
    by_cases hpa : p a = true
    · rw [List.filter_cons_of_pos hpa]
      have hnil : l.filter p = [] := by
        rw [List.filter_eq_nil_iff]
        intro s hs hps
        exact h.1 s hs ⟨hpa, hps⟩
      rw [hnil]
      simp
    · rw [List.filter_cons_of_neg (by simpa using hpa)]
      exact ih h.2

theorem length_filter_flatMap_le {α β : Type} (l : List α) (g : α → List β)
    (p : β → Bool) (q : α → Bool)
    (hin : ∀ a ∈ l, ((g a).filter p).length ≤ (if q a then 1 else 0)) :
    ((l.flatMap g).filter p).length ≤ (l.filter q).length := by
  induction l with
  | nil => simp
  | cons a l ih =>
    have ha := hin a (List.mem_cons_self a l)
    have hrest : ∀ b ∈ l, ((g b).filter p).length ≤ (if q b then 1 else 0) :=
      fun b hb => hin b (List.mem_cons_of_mem a hb)
    rw [List.flatMap_cons, List.filter_append, List.length_append]
    by_cases hqa : q a = true
    · rw [List.filter_cons_of_pos hqa]
      rw [if_pos hqa] at ha
      have := ih hrest
      simp only [List.length_cons]
      omega
    · rw [List.filter_cons_of_neg (by simpa using hqa)]
      rw [if_neg hqa] at ha
      have := ih hrest
      omega

/-! The claims. -/

/-- C5: clean_with_sql is idempotent: for every fixed content of the raw
tables wb.raw_fert and wb.raw_country, running it twice in succession
yields a canonical table wb.fertilizer_clean identical (here: even equal as
a list, hence identical up to row order) to the table produced by running
it once. -/
theorem C5_clean_with_sql_idempotent (db : DuckDB) :
    clean_with_sql (clean_with_sql db) = clean_with_sql db := rfl

/-- C7: after any run of clean_with_sql, every row of the canonical table
has a non-null region that is not the aggregate sentinel 'Aggregates',
because raw country records with a null or sentinel region are filtered out
before the join. -/
theorem C7_region_never_null_or_sentinel (raw_fert : List RawFert)
    (raw_country : List RawCountry) (r : CleanRecord)
    (hr : r ∈ fertilizer_clean_table raw_fert raw_country) :
    r.region ≠ none ∧ r.region ≠ some "Aggregates" := by
  unfold fertilizer_clean_table at hr
  simp only [List.mem_flatMap, List.mem_map, List.mem_filter, decide_eq_true_eq] at hr
  obtain ⟨f, hf, c, ⟨⟨hcmem, hcreg⟩, hciso⟩, rfl⟩ := hr
  exact hcreg

/-- Witness for C7 at a concrete input: the cleaned row of country A in the
top-consumers fixture. -/
theorem C7_witness :
    ({ iso2 := some "AA", iso3 := "AAA", country_name := some "A",
       region := some "RegionOne", year := 2020, kg_per_ha := some 300 } : CleanRecord) ∈
      fertilizer_clean_table topRawFert topRawCountry ∧
    (({ iso2 := some "AA", iso3 := "AAA", country_name := some "A",
        region := some "RegionOne", year := 2020, kg_per_ha := some 300 } : CleanRecord).region
        ≠ none ∧
     ({ iso2 := some "AA", iso3 := "AAA", country_name := some "A",
        region := some "RegionOne", year := 2020, kg_per_ha := some 300 } : CleanRecord).region
        ≠ some "Aggregates") :=
  ⟨by decide, C7_region_never_null_or_sentinel topRawFert topRawCountry _ (by decide)⟩

/-- C10: every row of the canonical table produced by clean_with_sql has a
non-null kg_per_ha: the cleaning step discards raw indicator rows with a
null value before the join, so the null branch of the kg_per_ha column is
never populated. -/
theorem C10_kg_per_ha_never_null (raw_fert : List RawFert)
    (raw_country : List RawCountry) (r : CleanRecord)
    (hr : r ∈ fertilizer_clean_table raw_fert raw_country) :
    r.kg_per_ha ≠ none := by
  unfold fertilizer_clean_table at hr
  simp only [List.mem_flatMap, List.mem_map, List.mem_filter, decide_eq_true_eq] at hr
  obtain ⟨f, hf, c, ⟨⟨hcmem, hcreg⟩, hciso⟩, rfl⟩ := hr
  rcases hv : f.value with _ | v
  · exact absurd hv hf.2
  · simp [hv]

/-- The CASE levelling of the source agrees with the ordered bucket scale of
the specification on every non-null peak value. -/
theorem caseLevel_eq_specBucket (v : Int) : caseLevel (some v) = specBucket v := by
  simp only [caseLevel, specBucket, optGT, decide_eq_true_eq]
  split_ifs <;> first | rfl | omega

/-- C2 counterexample: on the canonical table whose single country has kg
values 50 (1980), 120 (1995), 90 (2010), the peak query returns peak year
1995 and peak value 120 as the claim states, but consumption level
'Medium', not 'High' as the claim asserts. -/
theorem C2_counterexample :
    (peak_consumption_advanced_interactive peakFixture 20).map
        (fun p => (p.peak_year, p.peak_consumption, p.consumption_level)) =
      [(1995, some 120, "Medium")] ∧
    "Medium" ≠ "High" := by
  constructor
  · decide
  · decide

/-- C2 amended: peak_per_entity with min_year 1970 on the fixture country
with values 50 (1980), 120 (1995), 90 (2010) returns peak year 1995, peak
value 120 and consumption level 'Medium' (the source CASE labels values in
(100, 200] as Medium; 'High' requires a value above 200). -/
theorem C2_peak_on_fixture :
    peak_consumption_advanced_interactive peakFixture 20 =
      [{ country_name := some "Alphaland", region := some "South Asia",
         peak_year := 1995, peak_consumption := some 120,
         consumption_level := "Medium" }] := by
  decide

/-- C3: for every row returned by peak_per_entity whose peak kg_per_ha is a
(non-null) value v, the consumption level equals the bucket of v under the
ordered scale Low up to 100, Medium over 100 up to 200, High over 200 up to
500, Very High above 500 — lower bounds exclusive, upper bounds inclusive,
so a peak of exactly 100 is Low, exactly 200 is Medium, exactly 500 is
High. -/
theorem C3_level_is_bucket_of_peak (tbl : List CleanRecord) (top_n : Nat)
    (p : PeakRow) (hp : p ∈ peak_consumption_advanced_interactive tbl top_n)
    (v : Int) (hv : p.peak_consumption = some v) :
    p.consumption_level = specBucket v := by
  unfold peak_consumption_advanced_interactive at hp
  have hp2 := List.take_subset _ _ hp
  have hp3 := (List.perm_insertionSort _ _).mem_iff.mp hp2
  simp only [List.mem_filterMap] at hp3
  obtain ⟨nm, hnm, hsome⟩ := hp3
  rw [Option.map_eq_some'] at hsome
  obtain ⟨r, hr, rfl⟩ := hsome
  have hv2 : r.kg_per_ha = some v := hv
  show caseLevel r.kg_per_ha = specBucket v
  rw [hv2]
  exact caseLevel_eq_specBucket v

/-- Witness for C3: boundary values 100, 200 and 500 land in Low, Medium and
High, and the fixture row with peak 120 carries exactly the bucket of 120. -/
theorem C3_witness :
    specBucket 100 = "Low" ∧ specBucket 200 = "Medium" ∧ specBucket 500 = "High" ∧
    ({ country_name := some "Alphaland", region := some "South Asia",
       peak_year := 1995, peak_consumption := some 120,
       consumption_level := "Medium" } : PeakRow) ∈
      peak_consumption_advanced_interactive peakFixture 20 ∧
    ({ country_name := some "Alphaland", region := some "South Asia",
       peak_year := 1995, peak_consumption := some 120,
       consumption_level := "Medium" } : PeakRow).consumption_level = specBucket 120 :=
  ⟨by decide, by decide, by decide, by decide,
   C3_level_is_bucket_of_peak peakFixture 20 _ (by decide) 120 (by decide)⟩

/-- Witness for C10 at a concrete input: the cleaned row of country E in the
top-consumers fixture. -/
theorem C10_witness :
    ({ iso2 := some "EE", iso3 := "EEE", country_name := some "E",
       region := some "RegionTwo", year := 2020, kg_per_ha := some 100 } : CleanRecord) ∈
      fertilizer_clean_table topRawFert topRawCountry ∧
    ({ iso2 := some "EE", iso3 := "EEE", country_name := some "E",
       region := some "RegionTwo", year := 2020, kg_per_ha := some 100 } : CleanRecord).kg_per_ha
      ≠ none :=
  ⟨by decide, C10_kg_per_ha_never_null topRawFert topRawCountry _ (by decide)⟩

/-- C8: top_consumers returns the canonical rows of the requested year
(2020, the year wired into the source query) ordered by kg_per_ha
descending and truncated to the given limit; on the fixture whose year-2020
raw values are A=300, B=250, C=400, D=null, E=100, top_consumers(2020, 5)
returns exactly [C, A, B, E] — D is excluded because its null raw value
never reaches the canonical table — and a limit of 10 still returns only
the four available rows. -/
theorem C8_top_consumers (tbl : List CleanRecord) (top_n : Nat) :
    (List.Sorted (byKeyDesc (fun r => r.kg_per_ha))
        (visualize_top_consumers_2020 tbl top_n) ∧
      (visualize_top_consumers_2020 tbl top_n).length =
        min top_n ((tbl.filter (fun r => decide (r.year = 2020))).length) ∧
      ∀ r ∈ visualize_top_consumers_2020 tbl top_n, r ∈ tbl ∧ r.year = 2020) ∧
    ((visualize_top_consumers_2020 (fertilizer_clean_table topRawFert topRawCountry) 5).map
        (fun r => r.country_name) = [some "C", some "A", some "B", some "E"] ∧
      (visualize_top_consumers_2020 (fertilizer_clean_table topRawFert topRawCountry) 10).map
        (fun r => r.country_name) = [some "C", some "A", some "B", some "E"]) := by
  refine ⟨⟨?_, ?_, ?_⟩, by decide, by decide⟩
  · exact List.Pairwise.sublist (List.take_sublist _ _) (List.sorted_insertionSort _ _)
  · unfold visualize_top_consumers_2020
    rw [List.length_take, List.length_insertionSort]
  · intro r hr
    have hr2 := List.take_subset _ _ hr
    have hr3 := (List.perm_insertionSort _ _).mem_iff.mp hr2
    rw [List.mem_filter, decide_eq_true_eq] at hr3
    exact hr3

/-- Witness for C8: the top row of the fixture is the country C row, a
canonical year-2020 row. -/
theorem C8_witness :
    ({ iso2 := some "CC", iso3 := "CCC", country_name := some "C",
       region := some "RegionTwo", year := 2020, kg_per_ha := some 400 } : CleanRecord) ∈
      visualize_top_consumers_2020 (fertilizer_clean_table topRawFert topRawCountry) 5 ∧
    (({ iso2 := some "CC", iso3 := "CCC", country_name := some "C",
        region := some "RegionTwo", year := 2020, kg_per_ha := some 400 } : CleanRecord) ∈
        fertilizer_clean_table topRawFert topRawCountry ∧
      ({ iso2 := some "CC", iso3 := "CCC", country_name := some "C",
         region := some "RegionTwo", year := 2020, kg_per_ha := some 400 } : CleanRecord).year
        = 2020) :=
  ⟨by decide,
   (C8_top_consumers (fertilizer_clean_table topRawFert topRawCountry) 5).1.2.2 _ (by decide)⟩

/-- Reduction of get_country_trend for a truthy (non-empty) iso3 argument. -/
theorem get_country_trend_iso (tbl : List CleanRecord) (i : String)
    (cn : Option String) (hi : i ≠ "") :
    get_country_trend tbl (some i) cn = emptyToNone (trendQueryIso tbl i) := by
  unfold get_country_trend
  exact if_neg hi

/-- Reduction of get_country_trend for a falsy iso3 argument and a truthy
name argument. -/
theorem get_country_trend_name (tbl : List CleanRecord) (n : String) (hn : n ≠ "") :
    get_country_trend tbl none (some n) = emptyToNone (trendQueryName tbl n) := by
  unfold get_country_trend trendNameBranch
  exact if_neg hn

/-- C9: an identifier (ISO3 or exact country name) matching no canonical row
makes country_trend return the "no data" outcome None rather than an error,
and a matching identifier yields the country's full time series of non-null
kg_per_ha values ordered by year ascending. -/
theorem C9_country_trend (tbl : List CleanRecord) (i n : String) :
    ((∀ r ∈ tbl, r.iso3 ≠ i) → get_country_trend tbl (some i) none = none) ∧
    ((∀ r ∈ tbl, r.country_name ≠ some n) → get_country_trend tbl none (some n) = none) ∧
    ((∃ r ∈ tbl, r.iso3 = i ∧ r.kg_per_ha ≠ none) → i ≠ "" →
      ∃ l, get_country_trend tbl (some i) none = some l ∧
        List.Sorted (byKeyAsc (fun t => t.year)) l ∧
        l.Perm ((tbl.filter
          (fun r => decide (r.iso3 = i ∧ r.kg_per_ha ≠ none))).map toTrendRow)) ∧
    ((∃ r ∈ tbl, r.country_name = some n ∧ r.kg_per_ha ≠ none) → n ≠ "" →
      ∃ l, get_country_trend tbl none (some n) = some l ∧
        List.Sorted (byKeyAsc (fun t => t.year)) l ∧
        l.Perm ((tbl.filter
          (fun r => decide (r.country_name = some n ∧ r.kg_per_ha ≠ none))).map
            toTrendRow)) := by
  refine ⟨?_, ?_, ?_, ?_⟩
  · intro h
    by_cases hi : i = ""
    · subst hi
      rfl
    · rw [get_country_trend_iso tbl i none hi]
      have hnil : tbl.filter (fun r => decide (r.iso3 = i ∧ r.kg_per_ha ≠ none)) = [] := by
        rw [List.filter_eq_nil_iff]
        intro r hr
        simp only [decide_eq_true_eq]
        rintro ⟨h1, _⟩
        exact h r hr h1
      unfold trendQueryIso
      rw [hnil]
      rfl
  · intro h
    by_cases hn : n = ""
    · subst hn
      rfl
    · rw [get_country_trend_name tbl n hn]
      have hnil : tbl.filter
          (fun r => decide (r.country_name = some n ∧ r.kg_per_ha ≠ none)) = [] := by
        rw [List.filter_eq_nil_iff]
        intro r hr
        simp only [decide_eq_true_eq]
        rintro ⟨h1, _⟩
        exact h r hr h1
      unfold trendQueryName
      rw [hnil]
      rfl
  · rintro ⟨r, hr, hri, hrk⟩ hi
    rw [get_country_trend_iso tbl i none hi]
    have hm : toTrendRow r ∈ trendQueryIso tbl i := by
      unfold trendQueryIso
      rw [(List.perm_insertionSort _ _).mem_iff]
      exact List.mem_map.mpr
        ⟨r, List.mem_filter.mpr ⟨hr, by simp [hri, hrk]⟩, rfl⟩
    have hne : trendQueryIso tbl i ≠ [] := List.ne_nil_of_mem hm
    refine ⟨trendQueryIso tbl i, ?_, ?_, ?_⟩
    · unfold emptyToNone
      rw [if_neg (by simpa [List.isEmpty_iff] using hne)]
    · exact List.sorted_insertionSort _ _
    · exact List.perm_insertionSort _ _
  · rintro ⟨r, hr, hrn, hrk⟩ hn
    rw [get_country_trend_name tbl n hn]
    have hm : toTrendRow r ∈ trendQueryName tbl n := by
      unfold trendQueryName
      rw [(List.perm_insertionSort _ _).mem_iff]
      exact List.mem_map.mpr
        ⟨r, List.mem_filter.mpr ⟨hr, by simp [hrn, hrk]⟩, rfl⟩
    have hne : trendQueryName tbl n ≠ [] := List.ne_nil_of_mem hm
    refine ⟨trendQueryName tbl n, ?_, ?_, ?_⟩
    · unfold emptyToNone
      rw [if_neg (by simpa [List.isEmpty_iff] using hne)]
    · exact List.sorted_insertionSort _ _
    · exact List.perm_insertionSort _ _

/-- Witness for C9: the ISO3 'ZZZ' matches no row of the trend fixture and
yields None; the ISO3 'USA' matches and yields its sorted non-null
series. -/
theorem C9_witness :
    (∀ r ∈ trendFixture, r.iso3 ≠ "ZZZ") ∧
    get_country_trend trendFixture (some "ZZZ") none = none ∧
    (∃ r ∈ trendFixture, r.iso3 = "USA" ∧ r.kg_per_ha ≠ none) ∧
    (∃ l, get_country_trend trendFixture (some "USA") none = some l ∧
      List.Sorted (byKeyAsc (fun t => t.year)) l ∧
      l.Perm ((trendFixture.filter
        (fun r => decide (r.iso3 = "USA" ∧ r.kg_per_ha ≠ none))).map toTrendRow)) :=
  ⟨by decide, (C9_country_trend trendFixture "ZZZ" "x").1 (by decide), by decide,
   (C9_country_trend trendFixture "USA" "x").2.2.1 (by decide) (by decide)⟩

/-- One-step unfolding of the pagination loop. -/
theorem fetchLoop_succ (server : Nat → WBPayload) (f page : Nat) (acc : List Nat) :
    fetchLoop server (f + 1) page acc =
      match server page with
      | .malformed => some acc
      | .pageData pages records =>
        if records.isEmpty then some acc
        else
          if pages ≤ (page : Int) then some (acc ++ records)
          else fetchLoop server f (page + 1) (acc ++ records) := rfl

/-- One-step unfolding of the pagination loop on a malformed payload. -/
theorem fetchLoop_succ_malformed (server : Nat → WBPayload) (f page : Nat)
    (acc : List Nat) (hsp : server page = .malformed) :
    fetchLoop server (f + 1) page acc = some acc := by
  rw [fetchLoop_succ, hsp]

/-- One-step unfolding of the pagination loop on a well-formed payload. -/
theorem fetchLoop_succ_pageData (server : Nat → WBPayload) (f page : Nat)
    (acc : List Nat) (pages : Int) (records : List Nat)
    (hsp : server page = .pageData pages records) :
    fetchLoop server (f + 1) page acc =
      if records.isEmpty then some acc
      else
        if pages ≤ (page : Int) then some (acc ++ records)
        else fetchLoop server f (page + 1) (acc ++ records) := by
  rw [fetchLoop_succ, hsp]

/-- Against badServer, no stopping condition ever fires, at any page, with
any fuel. -/
theorem fetchLoop_badServer_none (fuel : Nat) :
    ∀ (page : Nat) (acc : List Nat), fetchLoop badServer fuel page acc = none := by
  induction fuel with
  | zero => intro page acc; rfl
  | succ f ih =>
    intro page acc
    rw [fetchLoop_succ]
    show (if ([page] : List Nat).isEmpty then some acc
      else if (page : Int) + 1 ≤ (page : Int) then some (acc ++ [page])
      else fetchLoop badServer f (page + 1) (acc ++ [page])) = none
    rw [if_neg (by simp), if_neg (by omega)]
    exact ih (page + 1) (acc ++ [page])

/-- C4 counterexample: the pagination loop does not terminate for every
sequence of server responses — against the server that always reports one
more total page than the page just requested and always returns a non-empty
record array, no fuel makes the loop stop on its own. -/
theorem C4_counterexample : ¬ fetchTerminates badServer := by
  rintro ⟨fuel, res, hres⟩
  unfold fetch_indicator_series at hres
  rw [fetchLoop_badServer_none fuel 1 []] at hres
  exact Option.noConfusion hres

/-- The pagination loop stops on its own whenever the reported page counts
are uniformly bounded, and returns the concatenation of the record arrays
of the pages it consumed, in page order. -/
theorem fetchLoop_stops (server : Nat → WBPayload) (B : Nat)
    (hB : ∀ p, pageCountOf (server p) ≤ (B : Int)) :
    ∀ (fuel page : Nat) (acc : List Nat), 1 ≤ fuel → B < page + fuel →
      ∃ k : Nat, fetchLoop server fuel page acc =
        some (acc ++ (pageSpan page k).flatMap (fun p => recsOf (server p))) := by
  intro fuel
  induction fuel with
  | zero => intro page acc h1 _; exact absurd h1 (by omega)
  | succ f ih =>
    intro page acc _ h2
    cases hsp : server page with
    | malformed =>
      refine ⟨0, ?_⟩
      rw [fetchLoop_succ_malformed server f page acc hsp,
        show pageSpan page 0 = [] from rfl]
      simp
    | pageData pages records =>
      rw [fetchLoop_succ_pageData server f page acc pages records hsp]
      by_cases hre : records.isEmpty
      · rw [if_pos hre]
        refine ⟨0, ?_⟩
        rw [show pageSpan page 0 = [] from rfl]
        simp
      · rw [if_neg hre]
        by_cases hple : pages ≤ (page : Int)
        · rw [if_pos hple]
          refine ⟨1, ?_⟩
          rw [show pageSpan page 1 = [page] from rfl]
          simp [hsp, recsOf]
        · rw [if_neg hple]
          have hcount := hB page
          rw [hsp] at hcount
          have hf : 1 ≤ f := by
            simp only [pageCountOf] at hcount
            omega
          obtain ⟨k, hk⟩ := ih (page + 1) (acc ++ records) hf (by omega)
          refine ⟨k + 1, ?_⟩
          rw [hk, show pageSpan page (k + 1) = page :: pageSpan (page + 1) k from rfl,
            List.flatMap_cons, hsp]
          show some _ = some _
          rw [List.append_assoc]
          rfl

/-- C4 amended: for every sequence of server responses whose reported total
page counts are uniformly bounded (in particular for a server reporting any
fixed page count, including pages = 0), the indicator pagination loop of
load_api_to_duckdb terminates, and the accumulated records are the
concatenation of the per-page record arrays in arrival order, so their
count equals the sum of the per-page record counts. -/
theorem C4_pagination_terminates (server : Nat → WBPayload) (B : Nat)
    (hB : ∀ p, pageCountOf (server p) ≤ (B : Int)) :
    fetchTerminates server ∧
    ∃ (k : Nat) (res : List Nat),
      fetch_indicator_series server (B + 1) = some res ∧
      res = (pageSpan 1 k).flatMap (fun p => recsOf (server p)) ∧
      res.length = ((pageSpan 1 k).map (fun p => (recsOf (server p)).length)).sum := by
  obtain ⟨k, hk⟩ := fetchLoop_stops server B hB (B + 1) 1 [] (by omega) (by omega)
  have hk2 : fetch_indicator_series server (B + 1) =
      some ((pageSpan 1 k).flatMap (fun p => recsOf (server p))) := by
    unfold fetch_indicator_series
    rw [hk]
    simp
  refine ⟨⟨B + 1, _, hk2⟩, k, _, hk2, rfl, ?_⟩
  rw [List.length_flatMap]
  rfl

/-- Witness for C4: the server that always reports pages = 0 with the
non-empty record array [7] is uniformly bounded by 0, the loop terminates
on it, and one unit of fuel already returns its first page. -/
theorem C4_witness :
    (∀ p, pageCountOf (zeroPagesServer p) ≤ ((0 : Nat) : Int)) ∧
    fetchTerminates zeroPagesServer ∧
    fetch_indicator_series zeroPagesServer 1 = some [7] :=
  ⟨fun _ => le_refl 0,
   (C4_pagination_terminates zeroPagesServer 0 (fun _ => le_refl 0)).1,
   by decide⟩

/-- C6 counterexample: with two raw country metadata rows for the same ISO3
(both carrying an honest region) and a single raw observation for that
ISO3, the cleaning join fans out and the canonical table holds two rows for
one (iso3, year) pair — uniqueness does not hold regardless of the raw
contents. -/
theorem C6_counterexample :
    ¬ (((fertilizer_clean_table dupRawFert dupRawCountry).filter
        (fun r => decide (r.iso3 = "AAA" ∧ r.year = 2000))).length ≤ 1) := by
  decide

/-- C6 amended: when the raw country metadata has at most one row per ISO3
and the raw indicator table has at most one observation per (iso3, year) —
both expressed as pairwise distinctness — every (iso3, year) pair
identifies at most one row of the canonical table built by
clean_with_sql. -/
theorem C6_iso3_year_unique (raw_fert : List RawFert) (raw_country : List RawCountry)
    (hc : raw_country.Pairwise (fun a b => a.iso3 ≠ b.iso3))
    (hf : raw_fert.Pairwise (fun a b => ¬(a.iso3 = b.iso3 ∧ a.date = b.date)))
    (i : String) (y : Int) :
    ((fertilizer_clean_table raw_fert raw_country).filter
        (fun r => decide (r.iso3 = i ∧ r.year = y))).length ≤ 1 := by
  simp only [fertilizer_clean_table]
  refine le_trans
    (length_filter_flatMap_le _ _ _ (fun f => decide (f.iso3 = i ∧ f.date = y)) ?_) ?_
  · intro f hfmem
    rw [List.filter_map, List.length_map]
    by_cases hq : f.iso3 = i ∧ f.date = y
    · rw [if_pos (decide_eq_true hq)]
      refine le_trans (List.Sublist.length_le (List.filter_sublist _)) ?_
      apply length_filter_le_one_of_pairwise
      refine List.Pairwise.imp ?_
        (List.Pairwise.sublist (List.filter_sublist raw_country) hc)
      intro a b hab hdec
      exact hab ((of_decide_eq_true hdec.1).trans (of_decide_eq_true hdec.2).symm)
    · rw [if_neg (by simpa using hq)]
      have hnil : List.filter
          ((fun r => decide (r.iso3 = i ∧ r.year = y)) ∘ fun c =>
            ({ iso2 := c.iso2, iso3 := f.iso3,
               country_name := c.name.orElse (fun _ => f.country_name_api),
               region := c.region, year := f.date,
               kg_per_ha := f.value.map sqlRound } : CleanRecord))
          (List.filter (fun c => decide (c.iso3 = f.iso3))
            (List.filter (fun c => decide (c.region ≠ none ∧ c.region ≠ some "Aggregates"))
              raw_country)) = [] := by
        rw [List.filter_eq_nil_iff]
        intro c hcmem
        simp only [Function.comp, decide_eq_true_eq]
        exact hq
      rw [hnil]
      simp
  · apply length_filter_le_one_of_pairwise
    refine List.Pairwise.imp ?_ (List.Pairwise.sublist (List.filter_sublist raw_fert) hf)
    intro a b hab hdec
    have ha := of_decide_eq_true hdec.1
    have hb := of_decide_eq_true hdec.2
    exact hab ⟨ha.1.trans hb.1.symm, ha.2.trans hb.2.symm⟩

/-- Witness for C6: the top-consumers raw fixture has distinct ISO3 metadata
and distinct (iso3, year) observations, and its canonical table holds at
most one row for ('AAA', 2020). -/
theorem C6_witness :
    topRawCountry.Pairwise (fun a b => a.iso3 ≠ b.iso3) ∧
    topRawFert.Pairwise (fun a b => ¬(a.iso3 = b.iso3 ∧ a.date = b.date)) ∧
    ((fertilizer_clean_table topRawFert topRawCountry).filter
        (fun r => decide (r.iso3 = "AAA" ∧ r.year = 2020))).length ≤ 1 :=
  ⟨by decide, by decide,
   C6_iso3_year_unique topRawFert topRawCountry (by decide) (by decide) "AAA" 2020⟩

/-- Membership in the endpoint-years restriction. -/
theorem mem_changeYearsOnly (tbl : List CleanRecord) (ys ye : Int) (r : CleanRecord) :
    r ∈ changeYearsOnly tbl ys ye ↔ r ∈ tbl ∧ (r.year = ys ∨ r.year = ye) := by
  simp [changeYearsOnly, List.mem_filter]

/-- Membership in one (country_name, region) group of the changes CTE. -/
theorem mem_changeGroup (tbl : List CleanRecord) (ys ye : Int)
    (k : Option String × Option String) (r : CleanRecord) :
    r ∈ changeGroup tbl ys ye k ↔
      r ∈ tbl ∧ (r.year = ys ∨ r.year = ye) ∧ r.country_name = k.1 ∧ r.region = k.2 := by
  simp only [changeGroup, changeYearsOnly, List.mem_filter, decide_eq_true_eq]
  tauto

/-- A change group is a sublist of the canonical table. -/
theorem changeGroup_sublist (tbl : List CleanRecord) (ys ye : Int)
    (k : Option String × Option String) : (changeGroup tbl ys ye k).Sublist tbl := by
  unfold changeGroup changeYearsOnly
  exact (List.filter_sublist _).trans (List.filter_sublist _)

/-- Over rows whose years all lie in a two-element set, COUNT(DISTINCT year)
is 2 exactly when both years actually occur. -/
theorem countDistinctYears_eq_two_iff (rows : List CleanRecord) (ys ye : Int)
    (hne : ys ≠ ye) (hdom : ∀ r ∈ rows, r.year = ys ∨ r.year = ye) :
    countDistinctYears rows = 2 ↔
      (∃ r ∈ rows, r.year = ys) ∧ (∃ r ∈ rows, r.year = ye) := by
  unfold countDistinctYears
  rw [← List.card_toFinset]
  have hmm : ∀ x : Int,
      x ∈ (rows.map (fun r => r.year)).toFinset ↔ ∃ r ∈ rows, r.year = x := by
    intro x
    rw [List.mem_toFinset, List.mem_map]
  have hsub : (rows.map (fun r => r.year)).toFinset ⊆ ({ys, ye} : Finset Int) := by
    intro x hx
    rcases (hmm x).mp hx with ⟨r, hr, hrx⟩
    rcases hdom r hr with h | h
    · rw [← hrx, h]
      exact Finset.mem_insert_self _ _
    · rw [← hrx, h]
      exact Finset.mem_insert_of_mem (Finset.mem_singleton_self _)
  constructor
  · intro h2
    have heq : (rows.map (fun r => r.year)).toFinset = {ys, ye} :=
      Finset.eq_of_subset_of_card_le hsub (by rw [Finset.card_pair hne, h2])
    constructor
    · refine (hmm ys).mp ?_
      rw [heq]
      exact Finset.mem_insert_self _ _
    · refine (hmm ye).mp ?_
      rw [heq]
      exact Finset.mem_insert_of_mem (Finset.mem_singleton_self _)
  · rintro ⟨⟨r, hr, hry⟩, ⟨s, hs, hsy⟩⟩
    have hsup : ({ys, ye} : Finset Int) ⊆ (rows.map (fun r => r.year)).toFinset := by
      intro x hx
      rcases Finset.mem_insert.mp hx with rfl | hx2
      · exact (hmm x).mpr ⟨r, hr, hry⟩
      · rw [Finset.mem_singleton] at hx2
        subst hx2
        exact (hmm x).mpr ⟨s, hs, hsy⟩
    rw [Finset.Subset.antisymm hsub hsup, Finset.card_pair hne]

/-- Membership characterization of the change-analysis output: a row comes
from a deduplicated (country_name, region) key whose group spans two
distinct years and whose endpoint aggregates are non-null. -/
theorem mem_change_iff (tbl : List CleanRecord) (ys ye : Int) (c : ChangeRow) :
    c ∈ consumption_change_analysis tbl ys ye ↔
      ∃ k ∈ dedupKeys
          ((changeYearsOnly tbl ys ye).map (fun r => (r.country_name, r.region))),
        countDistinctYears (changeGroup tbl ys ye k) = 2 ∧
        c = changeRowOf (changeGroup tbl ys ye k) ys ye k ∧
        c.start_consumption ≠ none ∧ c.end_consumption ≠ none := by
  simp only [consumption_change_analysis]
  rw [(List.perm_insertionSort _ _).mem_iff, List.mem_filter, List.mem_filterMap]
  constructor
  · rintro ⟨⟨k, hk, hik⟩, hnn⟩
    rw [decide_eq_true_eq] at hnn
    rw [Option.ite_none_right_eq_some] at hik
    exact ⟨k, hk, hik.1, (Option.some.inj hik.2).symm, hnn.1, hnn.2⟩
  · rintro ⟨k, hk, h2, rfl, h3, h4⟩
    refine ⟨⟨k, hk, ?_⟩, ?_⟩
    · rw [Option.ite_none_right_eq_some]
      exact ⟨h2, rfl⟩
    · rw [decide_eq_true_eq]
      exact ⟨h3, h4⟩

/-- MAX(CASE WHEN year = y ...) over a group in which at most one row can
carry year y evaluates to that row's kg_per_ha. -/
theorem sqlMaxKg_singleton (grp : List CleanRecord) (y : Int) (r : CleanRecord)
    (hr : r ∈ grp) (hy : r.year = y)
    (hpw : grp.Pairwise (fun a b => ¬(a.year = y ∧ b.year = y))) :
    sqlMaxKg grp y = r.kg_per_ha := by
  unfold sqlMaxKg
  rw [filter_eq_singleton_of_pairwise
    (List.Pairwise.imp
      (fun hab hd => hab ⟨of_decide_eq_true hd.1, of_decide_eq_true hd.2⟩) hpw)
    hr (decide_eq_true hy)]
  rcases hkg : r.kg_per_ha with _ | v
  · simp [List.filterMap_cons, hkg]
  · simp [List.filterMap_cons, hkg]

/-- C1 counterexample: with equal endpoint years, a country observed in that
(shared) year — hence in both year_start and year_end — is still absent
from the result, because COUNT(DISTINCT year) = 2 can never hold; and a
country whose two endpoint rows carry different regions is split into two
one-year groups and also dropped, even though it has an observation in both
years. -/
theorem C1_counterexample :
    (consumption_change_analysis changeOneRow 2020 2020 = [] ∧
      (∃ r ∈ changeOneRow, r.year = 2020 ∧ r.kg_per_ha ≠ none)) ∧
    (consumption_change_analysis changeSplitRegion 2010 2020 = [] ∧
      (∃ r ∈ changeSplitRegion,
        r.country_name = some "Xanadu" ∧ r.year = 2010 ∧ r.kg_per_ha ≠ none) ∧
      (∃ s ∈ changeSplitRegion,
        s.country_name = some "Xanadu" ∧ s.year = 2020 ∧ s.kg_per_ha ≠ none)) := by
  refine ⟨⟨?_, by decide⟩, ⟨?_, by decide, by decide⟩⟩
  · decide
  · decide

/-- C1 amended: for distinct endpoint years, over a canonical table in which
a country name determines the region and each (country_name, year) pair has
at most one row, change_over_interval returns exactly the countries with a
non-null kg_per_ha observation in both years; each returned row carries
start and end values of its country, absolute_change = end - start, and
percent_change = round(absolute_change / start * 100, 1), null when the
start value is zero; and the rows are ordered by absolute_change
descending. -/
theorem C1_change_over_interval (tbl : List CleanRecord) (ys ye : Int)
    (hy : ys ≠ ye)
    (hreg : ∀ r ∈ tbl, ∀ s ∈ tbl, r.country_name = s.country_name → r.region = s.region)
    (huniq : tbl.Pairwise
      (fun r s => ¬(r.country_name = s.country_name ∧ r.year = s.year))) :
    (∀ nm : Option String,
      (∃ c ∈ consumption_change_analysis tbl ys ye, c.country_name = nm) ↔
      ((∃ r ∈ tbl, r.country_name = nm ∧ r.year = ys ∧ r.kg_per_ha ≠ none) ∧
       (∃ s ∈ tbl, s.country_name = nm ∧ s.year = ye ∧ s.kg_per_ha ≠ none))) ∧
    (∀ c ∈ consumption_change_analysis tbl ys ye, ∀ r ∈ tbl, ∀ s ∈ tbl,
      r.country_name = c.country_name → s.country_name = c.country_name →
      r.year = ys → s.year = ye → ∀ a b : Int,
      r.kg_per_ha = some a → s.kg_per_ha = some b →
      c.start_consumption = some a ∧ c.end_consumption = some b ∧
      c.absolute_change = some (b - a) ∧
      c.percent_change =
        (if a = 0 then none
         else some (sqlRound1 (Rat.divInt ((b - a) * 100) a)))) ∧
    List.Sorted (byKeyDesc (fun c => c.absolute_change))
      (consumption_change_analysis tbl ys ye) := by
  have hkeyreg : ∀ k : Option String × Option String,
      k ∈ dedupKeys
        ((changeYearsOnly tbl ys ye).map (fun r => (r.country_name, r.region))) →
      ∀ r ∈ tbl, r.country_name = k.1 → r.region = k.2 := by
    intro k hk r hr hrn
    rcases List.mem_map.mp ((mem_dedupKeys _ _).mp hk) with ⟨w, hw, hwk⟩
    have hw2 := (mem_changeYearsOnly tbl ys ye w).mp hw
    have hwn : w.country_name = k.1 := by
      rw [← hwk]
    have hwr : w.region = k.2 := by
      rw [← hwk]
    rw [← hwr]
    exact hreg r hr w hw2.1 (by rw [hrn, ← hwn])
  have hGpw : ∀ (k : Option String × Option String) (y : Int),
      (changeGroup tbl ys ye k).Pairwise (fun a b => ¬(a.year = y ∧ b.year = y)) := by
    intro k y
    refine List.Pairwise.imp_of_mem (fun {a b} ha hb hab => ?_)
      (List.Pairwise.sublist (changeGroup_sublist tbl ys ye k) huniq)
    rintro ⟨hay, hby⟩
    have ha2 := (mem_changeGroup tbl ys ye k a).mp ha
    have hb2 := (mem_changeGroup tbl ys ye k b).mp hb
    exact hab ⟨ha2.2.2.1.trans hb2.2.2.1.symm, hay.trans hby.symm⟩
  refine ⟨?_, ?_, ?_⟩
  · intro nm
    constructor
    · rintro ⟨c, hc, hcn⟩
      rcases (mem_change_iff tbl ys ye c).mp hc with ⟨k, hk, h2, hceq, hsNN, heNN⟩
      rw [hceq] at hcn
      have hcn2 : k.1 = nm := hcn
      obtain ⟨⟨r1, hr1, hr1y⟩, ⟨s1, hs1, hs1y⟩⟩ :=
        (countDistinctYears_eq_two_iff (changeGroup tbl ys ye k) ys ye hy
          (fun r hr => ((mem_changeGroup tbl ys ye k r).mp hr).2.1)).mp h2
      have hr1' := (mem_changeGroup tbl ys ye k r1).mp hr1
      have hs1' := (mem_changeGroup tbl ys ye k s1).mp hs1
      have hstart : sqlMaxKg (changeGroup tbl ys ye k) ys = r1.kg_per_ha :=
        sqlMaxKg_singleton _ ys r1 hr1 hr1y (hGpw k ys)
      have hend : sqlMaxKg (changeGroup tbl ys ye k) ye = s1.kg_per_ha :=
        sqlMaxKg_singleton _ ye s1 hs1 hs1y (hGpw k ye)
      rw [hceq] at hsNN heNN
      have hsNN2 : sqlMaxKg (changeGroup tbl ys ye k) ys ≠ none := hsNN
      have heNN2 : sqlMaxKg (changeGroup tbl ys ye k) ye ≠ none := heNN
      rw [hstart] at hsNN2
      rw [hend] at heNN2
      exact ⟨⟨r1, hr1'.1, hr1'.2.2.1.trans hcn2, hr1y, hsNN2⟩,
        ⟨s1, hs1'.1, hs1'.2.2.1.trans hcn2, hs1y, heNN2⟩⟩
    · rintro ⟨⟨r, hr, hrn, hry, hrk⟩, ⟨s, hs, hsn, hsy, hsk⟩⟩
      have hrL : r ∈ changeYearsOnly tbl ys ye :=
        (mem_changeYearsOnly tbl ys ye r).mpr ⟨hr, Or.inl hry⟩
      have hk : (nm, r.region) ∈ dedupKeys
          ((changeYearsOnly tbl ys ye).map (fun r => (r.country_name, r.region))) :=
        (mem_dedupKeys _ _).mpr (List.mem_map.mpr ⟨r, hrL, by rw [hrn]⟩)
      have hrG : r ∈ changeGroup tbl ys ye (nm, r.region) :=
        (mem_changeGroup tbl ys ye _ r).mpr ⟨hr, Or.inl hry, hrn, rfl⟩
      have hsreg : s.region = r.region := hreg s hs r hr (hsn.trans hrn.symm)
      have hsG : s ∈ changeGroup tbl ys ye (nm, r.region) :=
        (mem_changeGroup tbl ys ye _ s).mpr ⟨hs, Or.inr hsy, hsn, hsreg⟩
      have h2 : countDistinctYears (changeGroup tbl ys ye (nm, r.region)) = 2 :=
        (countDistinctYears_eq_two_iff (changeGroup tbl ys ye (nm, r.region)) ys ye hy
          (fun t ht => ((mem_changeGroup tbl ys ye _ t).mp ht).2.1)).mpr
          ⟨⟨r, hrG, hry⟩, ⟨s, hsG, hsy⟩⟩
      have hstart : sqlMaxKg (changeGroup tbl ys ye (nm, r.region)) ys = r.kg_per_ha :=
        sqlMaxKg_singleton _ ys r hrG hry (hGpw (nm, r.region) ys)
      have hend : sqlMaxKg (changeGroup tbl ys ye (nm, r.region)) ye = s.kg_per_ha :=
        sqlMaxKg_singleton _ ye s hsG hsy (hGpw (nm, r.region) ye)
      refine ⟨changeRowOf (changeGroup tbl ys ye (nm, r.region)) ys ye (nm, r.region),
        (mem_change_iff tbl ys ye _).mpr ⟨(nm, r.region), hk, h2, rfl, ?_, ?_⟩, rfl⟩
      · show sqlMaxKg (changeGroup tbl ys ye (nm, r.region)) ys ≠ none
        rw [hstart]
        exact hrk
      · show sqlMaxKg (changeGroup tbl ys ye (nm, r.region)) ye ≠ none
        rw [hend]
        exact hsk
  · intro c hc r hr s hs hrn hsn hry hsy a b hra hsb
    rcases (mem_change_iff tbl ys ye c).mp hc with ⟨k, hk, h2, hceq, hsNN, heNN⟩
    have hck : c.country_name = k.1 := by
      rw [hceq]
      exact rfl
    have hrk1 : r.country_name = k.1 := hrn.trans hck
    have hsk1 : s.country_name = k.1 := hsn.trans hck
    have hrG : r ∈ changeGroup tbl ys ye k :=
      (mem_changeGroup tbl ys ye k r).mpr
        ⟨hr, Or.inl hry, hrk1, hkeyreg k hk r hr hrk1⟩
    have hsG : s ∈ changeGroup tbl ys ye k :=
      (mem_changeGroup tbl ys ye k s).mpr
        ⟨hs, Or.inr hsy, hsk1, hkeyreg k hk s hs hsk1⟩
    have hstart : sqlMaxKg (changeGroup tbl ys ye k) ys = r.kg_per_ha :=
      sqlMaxKg_singleton _ ys r hrG hry (hGpw k ys)
    have hend : sqlMaxKg (changeGroup tbl ys ye k) ye = s.kg_per_ha :=
      sqlMaxKg_singleton _ ye s hsG hsy (hGpw k ye)
    subst hceq
    refine ⟨?_, ?_, ?_, ?_⟩
    · show sqlMaxKg (changeGroup tbl ys ye k) ys = some a
      rw [hstart]
      exact hra
    · show sqlMaxKg (changeGroup tbl ys ye k) ye = some b
      rw [hend]
      exact hsb
    · show optSub (sqlMaxKg (changeGroup tbl ys ye k) ye)
        (sqlMaxKg (changeGroup tbl ys ye k) ys) = some (b - a)
      rw [hend, hstart, hra, hsb]
      rfl
    · show pctChange (sqlMaxKg (changeGroup tbl ys ye k) ye)
        (sqlMaxKg (changeGroup tbl ys ye k) ys) = _
      rw [hend, hstart, hra, hsb]
      rfl
  · simp only [consumption_change_analysis]
    exact List.sorted_insertionSort _ _

/-- Witness for C1 on a concrete well-formed table: Xland (4 to 10) is
returned, Yland (end year only) is not, Zland (start 0) is returned with a
null percent change, and the output is ordered by absolute change. -/
theorem C1_witness :
    ((2010 : Int) ≠ 2020) ∧
    (∃ c ∈ consumption_change_analysis changeFixture 2010 2020,
      c.country_name = some "Xland") ∧
    (¬ ∃ c ∈ consumption_change_analysis changeFixture 2010 2020,
      c.country_name = some "Yland") ∧
    (∃ c ∈ consumption_change_analysis changeFixture 2010 2020,
      c.country_name = some "Zland" ∧ c.percent_change = none) ∧
    List.Sorted (byKeyDesc (fun c => c.absolute_change))
      (consumption_change_analysis changeFixture 2010 2020) := by
  have hmain := C1_change_over_interval changeFixture 2010 2020 (by decide)
    (by decide) (by decide)
  refine ⟨by decide, ?_, ?_, ?_, hmain.2.2⟩
  · exact (hmain.1 (some "Xland")).mpr ⟨by decide, by decide⟩
  · intro h
    exact absurd ((hmain.1 (some "Yland")).mp h).1 (by decide)
  · obtain ⟨c, hc, hcn⟩ := (hmain.1 (some "Zland")).mpr ⟨by decide, by decide⟩
    refine ⟨c, hc, hcn, ?_⟩
    have hB := hmain.2.1 c hc
      ({ iso2 := some "ZZ", iso3 := "ZZA", country_name := some "Zland",
         region := some "RegionOne", year := 2010, kg_per_ha := some 0 } : CleanRecord)
      (by decide)
      ({ iso2 := some "ZZ", iso3 := "ZZA", country_name := some "Zland",
         region := some "RegionOne", year := 2020, kg_per_ha := some 5 } : CleanRecord)
      (by decide) (by rw [hcn]) (by rw [hcn]) rfl rfl 0 5 rfl rfl
    rw [hB.2.2.2]
    rfl

end Fertilizer
